import Mathlib

/-!
Verification of the AlamWeb server (src/MYWEB/app.py): a shallow embedding
of the two request handlers (submit_contact, chat_send), the storage
initializer (init_db) and the navigation routes, with theorems settling the
specification claims about them.

The SQLite store is modelled as explicit state: the two tables are lists of
rows, appended to by the handlers.  Request timestamps
(datetime.utcnow().isoformat()) are passed in as opaque string parameters.
A JSON payload field that is absent or null is modelled as `Option.none`;
the Python idiom `(data.get(k) or '').strip()` maps none and the empty
string alike to the empty string before trimming.
-/

namespace AlamWeb

/-- Python substring test helper: does the list start with the needle. -/
def startsWithL : List Char → List Char → Bool
  | _, [] => true
  | [], _ :: _ => false
  | c :: cs, n :: ns => c == n && startsWithL cs ns

/-- Python substring test on lists of characters: the first list occurs
contiguously inside the second. -/
def containsL (needle : List Char) : List Char → Bool
  | [] => startsWithL [] needle
  | c :: cs => startsWithL (c :: cs) needle || containsL needle cs

/-- The Python expression `needle in hay` on strings. -/
def pyIn (needle hay : String) : Bool :=
  containsL needle.toList hay.toList

/-- The Python expression `(opt or '')` applied to an optional string:
absent (None) and the empty string both give the empty string. -/
def orEmpty (o : Option String) : String := o.getD ""

/-- Whitespace characters removed by the Python method `strip`. -/
def pyIsSpace (c : Char) : Bool :=
  c == ' ' || c == '\t' || c == '\n' || c == '\r' || c == '\x0b' || c == '\x0c'

/-- The Python method `strip` on a list of characters: drop whitespace at
both ends. -/
def stripL (l : List Char) : List Char :=
  ((l.dropWhile pyIsSpace).reverse.dropWhile pyIsSpace).reverse

/-- The Python method `strip` on strings. -/
def pyStrip (s : String) : String := String.mk (stripL s.toList)

/-- The Python method `lower` on one character (ASCII range). -/
def pyLowerChar (c : Char) : Char :=
  if 65 ≤ c.toNat ∧ c.toNat ≤ 90 then Char.ofNat (c.toNat + 32) else c

/-- The Python method `lower` on strings. -/
def pyLower (s : String) : String := String.mk (s.toList.map pyLowerChar)

/-- A row of the contacts table (app.py lines 29-38). -/
structure ContactRow where
  name : String
  email : String
  message : String
  created_at : String
deriving DecidableEq

/-- A row of the chats table (app.py lines 41-49). -/
structure ChatRow where
  sender : String
  message : String
  created_at : String
deriving DecidableEq

/-- The database state seen by the handlers: both tables, as row lists. -/
structure DB where
  contacts : List ContactRow
  chats : List ChatRow
deriving DecidableEq

/-- A JSON response together with its HTTP status code.  `jsonify` alone
yields status 200; the handlers attach 400 or 500 explicitly otherwise. -/
structure JsonResponse where
  ok : Bool
  status : Nat
  error : Option String
  message : Option String
  reply : Option String
deriving DecidableEq

/-- JSON payload of POST /submit_contact. -/
structure ContactPayload where
  name : Option String
  email : Option String
  message : Option String

/-- JSON payload of POST /chat_send. -/
structure ChatPayload where
  message : Option String

/-- The store underlying init_db: each table either absent or present with
its rows. -/
structure Store where
  contactsTable : Option (List ContactRow)
  chatsTable : Option (List ChatRow)
deriving DecidableEq

/-- `CREATE TABLE IF NOT EXISTS`: creates an empty table when absent,
leaves an existing table with its rows untouched. -/
def createIfAbsent {α : Type} (t : Option (List α)) : Option (List α) :=
  match t with
  | none => some []
  | some rows => some rows

/-- init_db (app.py lines 24-51): issues CREATE TABLE IF NOT EXISTS for
contacts and for chats, then commits. -/
def init_db (s : Store) : Store :=
  { contactsTable := createIfAbsent s.contactsTable
    chatsTable := createIfAbsent s.chatsTable }

/-- submit_contact (app.py lines 71-95): trims name, email, message;
rejects with 400 when name or email is empty; otherwise inserts one
contacts row and acknowledges with 200. -/
def submit_contact (now : String) (data : ContactPayload) (db : DB) :
    JsonResponse × DB :=
  let name := pyStrip (orEmpty data.name)
  let email := pyStrip (orEmpty data.email)
  let message := pyStrip (orEmpty data.message)
  if name = "" ∨ email = "" then
    (⟨false, 400, some "Name and email are required.", none, none⟩, db)
  else
    (⟨true, 200, none, some "Thanks! Your message was received.", none⟩,
     { db with contacts := db.contacts ++ [⟨name, email, message, now⟩] })

/-- Greeting reply literal (app.py line 120). -/
def greetingReply : String :=
  "Hello! How can I help you today? You can ask about projects, services, or hiring."

/-- Projects reply literal (app.py line 122). -/
def projectsReply : String :=
  "I build full-stack and AI applications â€” check the Projects section for examples."

/-- Hiring reply literal (app.py line 124). -/
def hiringReply : String :=
  "Thanks for your interest! Please share a brief message about your requirements â€” I\x27ll get back to you."

/-- Help reply literal (app.py line 126). -/
def helpReply : String :=
  "Tell me more about the problem and I\x27ll suggest a solution or next steps."

/-- Fallback reply literal (app.py line 129). -/
def fallbackReply : String :=
  "Thanks for the message â€” I\x27ll review it and respond soon. Can you share more details?"

/-- The rule chain of chat_send (app.py lines 119-129), applied to the
already lower-cased message. -/
def replyFromLower (msg_lower : String) : String :=
  if pyIn "hi" msg_lower || pyIn "hello" msg_lower || pyIn "hey" msg_lower then
    greetingReply
  else if pyIn "project" msg_lower || pyIn "work" msg_lower then
    projectsReply
  else if pyIn "hire" msg_lower || pyIn "hire me" msg_lower || pyIn "pricing" msg_lower then
    hiringReply
  else if pyIn "help" msg_lower || pyIn "support" msg_lower then
    helpReply
  else
    fallbackReply

/-- The reply selection of chat_send (app.py lines 118-129): lower-case the
trimmed message, then run the rule chain. -/
def botReply (message : String) : String :=
  replyFromLower (pyLower message)

/-- chat_send (app.py lines 98-139): trims the message; rejects with 400
when empty; otherwise inserts the user row, selects the reply, inserts the
bot row, and returns the reply with 200. -/
def chat_send (nowUser nowBot : String) (data : ChatPayload) (db : DB) :
    JsonResponse × DB :=
  let message := pyStrip (orEmpty data.message)
  if message = "" then
    (⟨false, 400, some "Empty message", none, none⟩, db)
  else
    let db1 : DB := { db with chats := db.chats ++ [⟨"user", message, nowUser⟩] }
    let reply := botReply message
    let db2 : DB := { db1 with chats := db1.chats ++ [⟨"bot", reply, nowBot⟩] }
    (⟨true, 200, none, none, some reply⟩, db2)

/-- An HTTP response of the navigation routes: either a rendered template
or an HTTP redirect to a location. -/
inductive HttpResponse where
  | rendered (template : String)
  | redirectResp (location : String)
deriving DecidableEq

/-- home (app.py lines 66-68): GET / renders index.html. -/
def home : HttpResponse := .rendered "index.html"

/-- The value of the Python expression `url_for` applied to home. -/
def homeUrl : String := "/"

/-- home_alias (app.py lines 159-161): GET /home redirects to the home
route. -/
def home_alias : HttpResponse := .redirectResp homeUrl

/-- Modelled from the spec: the five-rule reference reply selection of
section 4.4, stated exactly in its words (lower-cased input, fixed order,
first match wins; rule 3 mentions only "hire" and "pricing"). -/
def specReply (message : String) : String :=
  let low := pyLower message
  if pyIn "hi" low || pyIn "hello" low || pyIn "hey" low then
    greetingReply
  else if pyIn "project" low || pyIn "work" low then
    projectsReply
  else if pyIn "hire" low || pyIn "pricing" low then
    hiringReply
  else if pyIn "help" low || pyIn "support" low then
    helpReply
  else
    fallbackReply

theorem startsWithL_append (n1 n2 : List Char) :
    ∀ l, startsWithL l (n1 ++ n2) = true → startsWithL l n1 = true := by
  induction n1 with
  | nil => intro l _; cases l <;> rfl
  | cons n ns ih =>
    intro l h
    cases l with
    | nil => simp [startsWithL] at h
    | cons c cs =>
      simp only [List.cons_append, startsWithL, Bool.and_eq_true] at h ⊢
      exact ⟨h.1, ih cs h.2⟩

theorem containsL_append_left (n1 n2 : List Char) :
    ∀ hay, containsL (n1 ++ n2) hay = true → containsL n1 hay = true := by
  intro hay
  induction hay with
  | nil =>
    intro h
    cases n1 with
    | nil => rfl
    | cons a as => simp [containsL, startsWithL] at h
  | cons c cs ih =>
    intro h
    simp only [containsL, Bool.or_eq_true] at h ⊢
    rcases h with h | h
    · exact Or.inl (startsWithL_append n1 n2 _ h)
    · exact Or.inr (ih h)

theorem pyIn_hireme_hire (l : String) :
    pyIn "hire me" l = true → pyIn "hire" l = true := by
  intro h
  have e : ("hire me").toList = ("hire").toList ++ (" me").toList := by decide
  unfold pyIn at h ⊢
  rw [e] at h
  exact containsL_append_left _ _ _ h

theorem botReply_eq_specReply (m : String) : botReply m = specReply m := by
  have key : (pyIn "hire" (pyLower m) || pyIn "hire me" (pyLower m)
        || pyIn "pricing" (pyLower m))
      = (pyIn "hire" (pyLower m) || pyIn "pricing" (pyLower m)) := by
    cases hh : pyIn "hire" (pyLower m) with
    | true => simp
    | false =>
      cases hm : pyIn "hire me" (pyLower m) with
      | true => rw [pyIn_hireme_hire _ hm] at hh; exact absurd hh (by simp)
      | false => simp
  simp only [botReply, replyFromLower, specReply]
  rw [key]

theorem botReply_ne_empty (m : String) : botReply m ≠ "" := by
  simp only [botReply, replyFromLower]
  split
  · decide
  split
  · decide
  split
  · decide
  split
  · decide
  · decide

/-- C1: for every chat payload whose message is non-empty after trimming,
chat_send returns ok true with a non-empty reply, and appends exactly two
rows to the chats table: first a user row holding the trimmed input, then
a bot row holding the returned reply. -/
theorem chat_send_success (nowUser nowBot : String) (data : ChatPayload)
    (db : DB) (h : pyStrip (orEmpty data.message) ≠ "") :
    (chat_send nowUser nowBot data db).1.ok = true ∧
    (chat_send nowUser nowBot data db).1.reply
      = some (botReply (pyStrip (orEmpty data.message))) ∧
    botReply (pyStrip (orEmpty data.message)) ≠ "" ∧
    (chat_send nowUser nowBot data db).2.chats
      = db.chats ++ [⟨"user", pyStrip (orEmpty data.message), nowUser⟩,
          ⟨"bot", botReply (pyStrip (orEmpty data.message)), nowBot⟩] := by
  simp only [chat_send]
  rw [if_neg h]
  exact ⟨rfl, rfl, botReply_ne_empty _, List.append_assoc _ _ _⟩

/-- Witness for C1 at the concrete message " hello ". -/
theorem chat_send_success_witness :
    (chat_send "t1" "t2" ⟨some " hello "⟩ ⟨[], []⟩).1.ok = true ∧
    (chat_send "t1" "t2" ⟨some " hello "⟩ ⟨[], []⟩).1.reply
      = some (botReply (pyStrip (orEmpty (some " hello ")))) ∧
    botReply (pyStrip (orEmpty (some " hello "))) ≠ "" ∧
    (chat_send "t1" "t2" ⟨some " hello "⟩ ⟨[], []⟩).2.chats
      = (⟨[], []⟩ : DB).chats
          ++ [⟨"user", pyStrip (orEmpty (some " hello ")), "t1"⟩,
              ⟨"bot", botReply (pyStrip (orEmpty (some " hello "))), "t2"⟩] :=
  chat_send_success "t1" "t2" ⟨some " hello "⟩ ⟨[], []⟩ (by decide)

/-- C2: the reply selection of chat_send equals the five-rule reference
definition taken from the spec, and two inputs that agree after
lower-casing always select the same reply. -/
theorem chat_reply_rules_spec (s t : String) (h : pyLower s = pyLower t) :
    botReply s = specReply s ∧ botReply s = botReply t := by
  refine ⟨botReply_eq_specReply s, ?_⟩
  simp only [botReply]
  rw [h]

/-- Witness for C2 at the concrete pair "HIRE ME please", "hire me please". -/
theorem chat_reply_rules_spec_witness :
    botReply "HIRE ME please" = specReply "HIRE ME please" ∧
    botReply "HIRE ME please" = botReply "hire me please" :=
  chat_reply_rules_spec "HIRE ME please" "hire me please" (by decide)

/-- C3: for every contact payload with non-empty trimmed name and email,
submit_contact returns ok true with status 200 and appends exactly one
contacts row holding the trimmed name, email and message. -/
theorem submit_contact_success (now : String) (data : ContactPayload)
    (db : DB) (hn : pyStrip (orEmpty data.name) ≠ "")
    (he : pyStrip (orEmpty data.email) ≠ "") :
    (submit_contact now data db).1.ok = true ∧
    (submit_contact now data db).1.status = 200 ∧
    (submit_contact now data db).2.contacts
      = db.contacts ++ [⟨pyStrip (orEmpty data.name), pyStrip (orEmpty data.email),
          pyStrip (orEmpty data.message), now⟩] ∧
    (submit_contact now data db).2.chats = db.chats := by
  simp only [submit_contact]
  rw [if_neg (not_or.mpr ⟨hn, he⟩)]
  exact ⟨rfl, rfl, rfl, rfl⟩

/-- Witness for C3 at a concrete valid payload. -/
theorem submit_contact_success_witness :
    (submit_contact "t" ⟨some " Alice ", some "a@b.c", some " hi "⟩ ⟨[], []⟩).1.ok
      = true ∧
    (submit_contact "t" ⟨some " Alice ", some "a@b.c", some " hi "⟩ ⟨[], []⟩).1.status
      = 200 ∧
    (submit_contact "t" ⟨some " Alice ", some "a@b.c", some " hi "⟩ ⟨[], []⟩).2.contacts
      = (⟨[], []⟩ : DB).contacts
          ++ [⟨pyStrip (orEmpty (some " Alice ")), pyStrip (orEmpty (some "a@b.c")),
              pyStrip (orEmpty (some " hi ")), "t"⟩] ∧
    (submit_contact "t" ⟨some " Alice ", some "a@b.c", some " hi "⟩ ⟨[], []⟩).2.chats
      = (⟨[], []⟩ : DB).chats :=
  submit_contact_success "t" ⟨some " Alice ", some "a@b.c", some " hi "⟩ ⟨[], []⟩
    (by decide) (by decide)

/-- C4: for every contact payload in which name or email is empty after
trimming, submit_contact returns ok false with status 400 and the error
text, and the stored state is unchanged. -/
theorem submit_contact_validation (now : String) (data : ContactPayload)
    (db : DB)
    (h : pyStrip (orEmpty data.name) = "" ∨ pyStrip (orEmpty data.email) = "") :
    (submit_contact now data db).1
      = ⟨false, 400, some "Name and email are required.", none, none⟩ ∧
    (submit_contact now data db).2 = db := by
  simp only [submit_contact]
  rw [if_pos h]
  exact ⟨rfl, rfl⟩

/-- Witness for C4 at a concrete payload with a blank name. -/
theorem submit_contact_validation_witness :
    (submit_contact "t" ⟨some "  ", some "a@b.c", none⟩ ⟨[], []⟩).1
      = ⟨false, 400, some "Name and email are required.", none, none⟩ ∧
    (submit_contact "t" ⟨some "  ", some "a@b.c", none⟩ ⟨[], []⟩).2 = ⟨[], []⟩ :=
  submit_contact_validation "t" ⟨some "  ", some "a@b.c", none⟩ ⟨[], []⟩
    (by decide)

/-- C5: for every chat payload whose message is empty after trimming,
chat_send returns ok false with status 400 and the error text
"Empty message", and the stored state is unchanged. -/
theorem chat_send_empty_validation (nowUser nowBot : String)
    (data : ChatPayload) (db : DB) (h : pyStrip (orEmpty data.message) = "") :
    (chat_send nowUser nowBot data db).1
      = ⟨false, 400, some "Empty message", none, none⟩ ∧
    (chat_send nowUser nowBot data db).2 = db := by
  simp only [chat_send]
  rw [if_pos h]
  exact ⟨rfl, rfl⟩

/-- Witness for C5 at a concrete whitespace-only message. -/
theorem chat_send_empty_validation_witness :
    (chat_send "t1" "t2" ⟨some "   "⟩ ⟨[], []⟩).1
      = ⟨false, 400, some "Empty message", none, none⟩ ∧
    (chat_send "t1" "t2" ⟨some "   "⟩ ⟨[], []⟩).2 = ⟨[], []⟩ :=
  chat_send_empty_validation "t1" "t2" ⟨some "   "⟩ ⟨[], []⟩ (by decide)

/-- C6: the input "hey, any projects?" selects the greeting reply of rule 1,
not the projects reply, although rule 2 would also match: rules are tried
in fixed order and the first match wins. -/
theorem chat_rule_precedence :
    (chat_send "t1" "t2" ⟨some "hey, any projects?"⟩ ⟨[], []⟩).1.reply
      = some greetingReply ∧
    botReply "hey, any projects?" = greetingReply ∧
    pyIn "project" (pyLower "hey, any projects?") = true ∧
    greetingReply ≠ projectsReply := by decide

/-- C7: init_db is idempotent and non-destructive: running it twice equals
running it once, it never errors (it is a total function), and it leaves
each table present with exactly the rows it had, creating an empty table
only where none existed. -/
theorem init_db_idempotent (s : Store) :
    init_db (init_db s) = init_db s ∧
    (init_db s).contactsTable = some (s.contactsTable.getD []) ∧
    (init_db s).chatsTable = some (s.chatsTable.getD []) := by
  rcases s with ⟨ct, ch⟩
  cases ct <;> cases ch <;> simp [init_db, createIfAbsent]

/-- C8: neither handler updates or deletes existing rows: each table of the
resulting state extends the old table by appended rows only, submit_contact
leaves the chats table unchanged, and chat_send leaves the contacts table
unchanged. -/
theorem handlers_insert_only (now nowUser nowBot : String)
    (cdata : ContactPayload) (mdata : ChatPayload) (db : DB) :
    (submit_contact now cdata db).2.chats = db.chats ∧
    (∃ newRows, (submit_contact now cdata db).2.contacts
      = db.contacts ++ newRows) ∧
    (chat_send nowUser nowBot mdata db).2.contacts = db.contacts ∧
    (∃ newRows, (chat_send nowUser nowBot mdata db).2.chats
      = db.chats ++ newRows) := by
  refine ⟨?_, ?_, ?_, ?_⟩
  · simp only [submit_contact]; split <;> rfl
  · simp only [submit_contact]; split
    · exact ⟨[], (List.append_nil _).symm⟩
    · exact ⟨_, rfl⟩
  · simp only [chat_send]; split <;> rfl
  · simp only [chat_send]; split
    · exact ⟨[], (List.append_nil _).symm⟩
    · exact ⟨_, List.append_assoc _ _ _⟩

/-- C9 counterexample: GET /home does not return the same response as
GET /: home_alias is an HTTP redirect to /, while home renders the landing
page template. -/
theorem home_alias_not_same_as_home :
    home_alias ≠ home ∧ home_alias = HttpResponse.redirectResp "/" := by
  decide

/-- C9 (amended): GET /home returns an HTTP redirect to the landing route
/, whose own GET renders the landing page; /home serves the landing page
only through that redirect, not as the same response. -/
theorem home_alias_redirects :
    home_alias = HttpResponse.redirectResp homeUrl ∧ homeUrl = "/" ∧
    home = HttpResponse.rendered "index.html" := by decide

/-- C10: a payload field that is absent or null behaves exactly like the
empty string: a contact payload missing name or email yields the 400
validation response, a chat payload missing message yields the 400
"Empty message" response, and no row is inserted in either case. -/
theorem absent_field_as_empty (now nowUser nowBot : String) (db : DB)
    (n e m : Option String) :
    submit_contact now ⟨none, e, m⟩ db = submit_contact now ⟨some "", e, m⟩ db ∧
    (submit_contact now ⟨none, e, m⟩ db).1.status = 400 ∧
    (submit_contact now ⟨none, e, m⟩ db).1.error
      = some "Name and email are required." ∧
    (submit_contact now ⟨none, e, m⟩ db).2 = db ∧
    submit_contact now ⟨n, none, m⟩ db = submit_contact now ⟨n, some "", m⟩ db ∧
    (submit_contact now ⟨n, none, m⟩ db).1.status = 400 ∧
    (submit_contact now ⟨n, none, m⟩ db).2 = db ∧
    chat_send nowUser nowBot ⟨none⟩ db = chat_send nowUser nowBot ⟨some ""⟩ db ∧
    (chat_send nowUser nowBot ⟨none⟩ db).1
      = ⟨false, 400, some "Empty message", none, none⟩ ∧
    (chat_send nowUser nowBot ⟨none⟩ db).2 = db := by
  have h0 : pyStrip (orEmpty none) = "" := by decide
  have hc : ∀ d : DB, submit_contact now ⟨none, e, m⟩ d
      = (⟨false, 400, some "Name and email are required.", none, none⟩, d) := by
    intro d
    simp only [submit_contact]
    rw [if_pos (Or.inl h0)]
  have he2 : ∀ d : DB, submit_contact now ⟨n, none, m⟩ d
      = (⟨false, 400, some "Name and email are required.", none, none⟩, d) := by
    intro d
    simp only [submit_contact]
    rw [if_pos (Or.inr h0)]
  have hm2 : ∀ d : DB, chat_send nowUser nowBot ⟨none⟩ d
      = (⟨false, 400, some "Empty message", none, none⟩, d) := by
    intro d
    simp only [chat_send]
    rw [if_pos h0]
  refine ⟨rfl, ?_, ?_, ?_, rfl, ?_, ?_, rfl, ?_, ?_⟩
  · rw [hc db]
  · rw [hc db]
  · rw [hc db]
  · rw [he2 db]
  · rw [he2 db]
  · rw [hm2 db]
  · rw [hm2 db]

end AlamWeb
